import Mathlib

/-!
Shallow embedding of the grade-thresholds classification and aggregation
model of the scorix_v2 frontend (GradingInterface.tsx, types/index.ts),
together with the spec-modelled backend operations (classify,
aggregateOverall) that the frontend delegates to the external grading
service.

Scores and point values (JS numbers) are modelled as rationals; JS string
records (`Record<string, number>`) as insertion-ordered association lists;
axios responses as `Except` over an optional payload (`response.data ?? []`).
-/

namespace Scorix

/-- GradeThresholds from types/index.ts: minimum percentage for each
letter grade. -/
structure GradeThresholds where
  A : ℚ
  B : ℚ
  C : ℚ
  D : ℚ
  F : ℚ
deriving DecidableEq, Repr

/-- GradingResult from types/index.ts: one question-level outcome. -/
structure GradingResult where
  student_name : String
  student_roll_no : String
  question_id : String
  course_id : String
  score : ℚ
  grade : String
  points_earned : ℚ
  matched_rules : List String
  missed_rules : List String
deriving DecidableEq, Repr

/-- TestGradingResult from types/index.ts: one test-level outcome. -/
structure TestGradingResult where
  test_id : String
  course_id : String
  student_name : String
  student_roll_no : String
  overall_score : ℚ
  overall_grade : String
  total_points_earned : ℚ
  question_results : List GradingResult
deriving DecidableEq, Repr

/-- The union element type accepted by calculateStats
(`GradingResult[] | TestGradingResult[]`). -/
inductive ResultItem where
  | course (r : GradingResult)
  | test (r : TestGradingResult)
deriving DecidableEq, Repr

/-- The score projection of calculateStats:
`'overall_score' in r ? r.overall_score : r.score`. -/
def ResultItem.score : ResultItem → ℚ
  | .course r => r.score
  | .test r => r.overall_score

/-- The grade projection of calculateStats:
`'overall_grade' in r ? r.overall_grade : r.grade`. -/
def ResultItem.grade : ResultItem → String
  | .course r => r.grade
  | .test r => r.overall_grade

/-- The statistics object returned by calculateStats. The grade
distribution is the JS `Record<string, number>` built by insertion order. -/
structure Statistics where
  avgScore : ℚ
  maxScore : ℚ
  minScore : ℚ
  gradeDistribution : List (String × Nat)
deriving DecidableEq, Repr

/-- One step of `gradeDistribution[grade] = (gradeDistribution[grade] || 0) + 1`
on an insertion-ordered record. -/
def bumpGrade (d : List (String × Nat)) (g : String) : List (String × Nat) :=
  if d.any (fun p => p.1 = g) then
    d.map (fun p => if p.1 = g then (p.1, p.2 + 1) else p)
  else
    d ++ [(g, 1)]

/-- calculateStats from GradingInterface.tsx lines 165-180: returns `null`
for an empty collection, otherwise average / max / min of the scores and
the grade distribution record. -/
def calculateStats (results : List ResultItem) : Option Statistics :=
  if results.length = 0 then none
  else
    let scores := results.map ResultItem.score
    let avgScore := scores.foldl (fun sum score => sum + score) 0 / (scores.length : ℚ)
    let maxScore := (scores.tail).foldl max (scores.headD 0)
    let minScore := (scores.tail).foldl min (scores.headD 0)
    let gradeDistribution := results.foldl (fun d r => bumpGrade d (ResultItem.grade r)) []
    some ⟨avgScore, maxScore, minScore, gradeDistribution⟩

/-- An opaque external-API failure (network, 4xx/5xx); only its message is
observable to this subsystem. -/
structure ApiError where
  message : String
deriving DecidableEq, Repr

/-- A react-hot-toast notification emitted by a handler. -/
inductive Toast where
  | success (msg : String)
  | error (msg : String)
deriving DecidableEq, Repr

/-- The React state of GradingInterface relevant to the grading review
session. -/
structure SessionState where
  gradingResults : List GradingResult
  testGradingResults : List TestGradingResult
  gradeThresholds : Option GradeThresholds
  showThresholdsModal : Bool
  thresholdsForm : GradeThresholds
  loading : Bool
deriving DecidableEq, Repr

/-- The observable outcome of one handler run: the post-state, the toasts
emitted in order, and the exception (if any) the handler lets escape to
its caller. -/
structure HandlerOutput where
  state : SessionState
  toasts : List Toast
  raised : Option ApiError
deriving DecidableEq, Repr

/-- handleGradeCourse from GradingInterface.tsx lines 78-101, as a function
of the current state, the selected course id, and the outcome of the
awaited `gradingAPI.gradeCourse` call (axios `response.data` may be
absent, hence `Option`). -/
def handleGradeCourse (st : SessionState) (selectedCourseId : String)
    (response : Except ApiError (Option (List GradingResult))) : HandlerOutput :=
  if selectedCourseId = "" then
    ⟨st, [Toast.error "Please select a course to grade"], none⟩
  else
    match response with
    | .ok data =>
      let results := data.getD []
      let st1 := { st with gradingResults := results,
                           testGradingResults := [],
                           loading := false }
      match data with
      | some l =>
        if l.length > 0 then
          ⟨st1, [Toast.success ("Successfully graded " ++ toString l.length ++ " answers")], none⟩
        else
          ⟨st1, [Toast.success "No answers found to grade for this course"], none⟩
      | none =>
        ⟨st1, [Toast.success "No answers found to grade for this course"], none⟩
    | .error _ =>
      ⟨{ st with loading := false },
       [Toast.error "Failed to grade course answers"], none⟩

/-- handleGradeTest from GradingInterface.tsx lines 103-126, analogous to
handleGradeCourse for test-level grading. -/
def handleGradeTest (st : SessionState) (selectedTestId : String)
    (response : Except ApiError (Option (List TestGradingResult))) : HandlerOutput :=
  if selectedTestId = "" then
    ⟨st, [Toast.error "Please select a test to grade"], none⟩
  else
    match response with
    | .ok data =>
      let results := data.getD []
      let st1 := { st with testGradingResults := results,
                           gradingResults := [],
                           loading := false }
      match data with
      | some l =>
        if l.length > 0 then
          ⟨st1, [Toast.success ("Successfully graded " ++ toString l.length ++ " test submissions")], none⟩
        else
          ⟨st1, [Toast.success "No test submissions found to grade"], none⟩
      | none =>
        ⟨st1, [Toast.success "No test submissions found to grade"], none⟩
    | .error _ =>
      ⟨{ st with loading := false },
       [Toast.error "Failed to grade test"], none⟩

/-- handleUpdateThresholds from GradingInterface.tsx lines 128-138, as a
function of the current state and the outcome of the awaited
`gradingAPI.updateGradeThresholds(thresholdsForm)` call. On success the
form is stored and the modal closed; on failure only a toast is shown. -/
def handleUpdateThresholds (st : SessionState)
    (response : Except ApiError Unit) : HandlerOutput :=
  match response with
  | .ok _ =>
    ⟨{ st with gradeThresholds := some st.thresholdsForm,
               showThresholdsModal := false },
     [Toast.success "Grade thresholds updated successfully"], none⟩
  | .error _ =>
    ⟨st, [Toast.error "Failed to update grade thresholds"], none⟩

/-- The fixed priority order of grade labels used by classification
(spec section 4.1). -/
def gradeOrder : List String := ["A", "B", "C", "D", "F"]

/-- The cutoff of a grade label in a thresholds table. -/
def cutoffOf (t : GradeThresholds) : String → ℚ
  | "A" => t.A
  | "B" => t.B
  | "C" => t.C
  | "D" => t.D
  | _ => t.F

/-- The typed errors of the pure components (spec section 7). -/
inductive ThresholdError where
  | invalidThresholds
deriving DecidableEq, Repr

/-- Modelled from the spec: `ThresholdTable.classify` is performed by the
external backend service and is not implemented in this repository's
frontend source. Spec section 4.1: iterate grade labels in the fixed
priority order A,B,C,D,F; return the first label whose cutoff is ≤ score
(cutoffs are inclusive lower bounds); if no cutoff matches, fail with an
InvalidThresholds error. -/
def classify (score : ℚ) (t : GradeThresholds) : Except ThresholdError String :=
  match gradeOrder.find? (fun g => cutoffOf t g ≤ score) with
  | some g => .ok g
  | none => .error .invalidThresholds

/-- Modelled from the spec: rounding to one decimal place using
round-half-away-from-zero (spec section 4.2); the computation lives in
the external backend service, not in this repository's frontend source. -/
def round1 (x : ℚ) : ℚ :=
  if 0 ≤ x then (⌊x * 10 + 1 / 2⌋ : ℚ) / 10
  else -((⌊-x * 10 + 1 / 2⌋ : ℚ) / 10)

instance : DecidableEq (Except ThresholdError String) :=
  fun a b =>
    match a, b with
    | .ok x, .ok y => decidable_of_iff (x = y) (by simp)
    | .ok _, .error _ => isFalse (by simp)
    | .error _, .ok _ => isFalse (by simp)
    | .error x, .error y => decidable_of_iff (x = y) (by simp)

/-- The aggregate produced by aggregateOverall; the grade carries the
possible InvalidThresholds failure of classification. -/
structure OverallResult where
  overall_score : ℚ
  overall_grade : Except ThresholdError String
  total_points_earned : ℚ
deriving DecidableEq, Repr

/-- Modelled from the spec: `ResultAggregator.aggregateOverall` is
performed by the external backend service and is not implemented in this
repository's frontend source. Spec section 4.2: overall_score is
sum(points_earned) / sum(max_points_per_question) × 100, rounded to one
decimal with round-half-away-from-zero; overall_grade is
classify(overall_score, thresholds); if sum(max_points) is 0 the score is
defined as 0 with no division error. GradingResult carries no per-question
maximum, so the maxima arrive as a parallel list. -/
def aggregateOverall (questionResults : List GradingResult)
    (maxPoints : List ℚ) (thresholds : GradeThresholds) : OverallResult :=
  let earned := (questionResults.map (fun r => r.points_earned)).sum
  let maxTotal := maxPoints.sum
  let score := if maxTotal = 0 then 0 else round1 (earned / maxTotal * 100)
  { overall_score := score
    overall_grade := classify score thresholds
    total_points_earned := earned }

/-! Sample data used by witnesses and counterexamples. -/

/-- A sample question-level result: 8 of 10 points, score 80, grade B. -/
def sampleQ1 : GradingResult :=
  ⟨"Ada", "r-01", "q1", "c1", 80, "B", 8, ["rule-1"], ["rule-2"]⟩

/-- A sample question-level result: 10 of 10 points, score 100, grade A. -/
def sampleQ2 : GradingResult :=
  ⟨"Ada", "r-01", "q2", "c1", 100, "A", 10, ["rule-3"], []⟩

/-- A sample test-level result containing the two sample questions. -/
def sampleTestResult : TestGradingResult :=
  ⟨"t1", "c1", "Ada", "r-01", 90, "A", 18, [sampleQ1, sampleQ2]⟩

/-- The default thresholds table {A:90, B:80, C:70, D:60, F:0}. -/
def stdThresholds : GradeThresholds := ⟨90, 80, 70, 60, 0⟩

/-- A sample session state holding previously fetched results of both
kinds, with the thresholds modal open. -/
def sampleState : SessionState :=
  { gradingResults := [sampleQ1]
    testGradingResults := [sampleTestResult]
    gradeThresholds := some stdThresholds
    showThresholdsModal := true
    thresholdsForm := stdThresholds
    loading := false }

/-! Claims. -/

/-- C1 counterexample: for the empty collection, calculateStats does not
return a zeroed Statistics value — it returns `none` (the source's
`null`), so no Statistics value at all is produced. -/
theorem C1_empty_stats_counterexample :
    calculateStats [] = none ∧ ∀ s : Statistics, calculateStats [] ≠ some s := by
  constructor
  · rfl
  · intro s h
    simp [calculateStats] at h

/-- C1 amended: for every empty collection of results, calculateStats
returns `none` (JS `null`) — it does not fail, but neither does it build
the zeroed Statistics object; the zero values shown for an empty display
come from UI fallbacks, not from calculateStats. -/
theorem C1_empty_stats (rs : List ResultItem) (h : rs.length = 0) :
    calculateStats rs = none := by
  simp [calculateStats, h]

/-- C1 witness. -/
theorem C1_empty_stats_witness : calculateStats [] = none :=
  C1_empty_stats [] rfl

/-- C2: when a grading call fails with an external API error, both
previously held result lists are left intact, and an error toast (the
retryable notification — the Grade buttons stay enabled) is emitted. -/
theorem C2_failure_preserves_results (st : SessionState) (cid tid : String)
    (e e' : ApiError) (hc : cid ≠ "") (ht : tid ≠ "") :
    ((handleGradeCourse st cid (.error e)).state.gradingResults = st.gradingResults
      ∧ (handleGradeCourse st cid (.error e)).state.testGradingResults = st.testGradingResults
      ∧ Toast.error "Failed to grade course answers" ∈ (handleGradeCourse st cid (.error e)).toasts)
    ∧ ((handleGradeTest st tid (.error e')).state.gradingResults = st.gradingResults
      ∧ (handleGradeTest st tid (.error e')).state.testGradingResults = st.testGradingResults
      ∧ Toast.error "Failed to grade test" ∈ (handleGradeTest st tid (.error e')).toasts) := by
  simp [handleGradeCourse, handleGradeTest, hc, ht]

/-- C2 witness. -/
theorem C2_failure_preserves_results_witness :
    ((handleGradeCourse sampleState "c1" (.error ⟨"network down"⟩)).state.gradingResults
        = sampleState.gradingResults
      ∧ (handleGradeCourse sampleState "c1" (.error ⟨"network down"⟩)).state.testGradingResults
        = sampleState.testGradingResults
      ∧ Toast.error "Failed to grade course answers"
        ∈ (handleGradeCourse sampleState "c1" (.error ⟨"network down"⟩)).toasts)
    ∧ ((handleGradeTest sampleState "t1" (.error ⟨"HTTP 500"⟩)).state.gradingResults
        = sampleState.gradingResults
      ∧ (handleGradeTest sampleState "t1" (.error ⟨"HTTP 500"⟩)).state.testGradingResults
        = sampleState.testGradingResults
      ∧ Toast.error "Failed to grade test"
        ∈ (handleGradeTest sampleState "t1" (.error ⟨"HTTP 500"⟩)).toasts) :=
  C2_failure_preserves_results sampleState "c1" "t1" ⟨"network down"⟩ ⟨"HTTP 500"⟩
    (by decide) (by decide)

/-- C3: a successful gradeCourse stores the new course results and clears
the test results; a successful gradeTest does the symmetric thing; and
after gradeCourse followed immediately by gradeTest, only the test
results remain. -/
theorem C3_single_active_result_set (st : SessionState) (cid tid : String)
    (d1 : Option (List GradingResult)) (d2 : Option (List TestGradingResult))
    (hc : cid ≠ "") (ht : tid ≠ "") :
    ((handleGradeCourse st cid (.ok d1)).state.testGradingResults = []
      ∧ (handleGradeCourse st cid (.ok d1)).state.gradingResults = d1.getD [])
    ∧ ((handleGradeTest st tid (.ok d2)).state.gradingResults = []
      ∧ (handleGradeTest st tid (.ok d2)).state.testGradingResults = d2.getD [])
    ∧ ((handleGradeTest (handleGradeCourse st cid (.ok d1)).state tid (.ok d2)).state.gradingResults = []
      ∧ (handleGradeTest (handleGradeCourse st cid (.ok d1)).state tid
          (.ok d2)).state.testGradingResults = d2.getD []) := by
  cases d1 with
  | none =>
    cases d2 with
    | none => simp [handleGradeCourse, handleGradeTest, hc, ht]
    | some l2 =>
      by_cases h2 : l2.length > 0 <;>
        simp [handleGradeCourse, handleGradeTest, hc, ht, h2]
  | some l1 =>
    cases d2 with
    | none =>
      by_cases h1 : l1.length > 0 <;>
        simp [handleGradeCourse, handleGradeTest, hc, ht, h1]
    | some l2 =>
      by_cases h1 : l1.length > 0 <;> by_cases h2 : l2.length > 0 <;>
        simp [handleGradeCourse, handleGradeTest, hc, ht, h1, h2]

/-- C3 witness. -/
theorem C3_single_active_result_set_witness :
    ((handleGradeCourse sampleState "c1" (.ok (some [sampleQ1]))).state.testGradingResults = []
      ∧ (handleGradeCourse sampleState "c1" (.ok (some [sampleQ1]))).state.gradingResults
        = (some [sampleQ1]).getD [])
    ∧ ((handleGradeTest sampleState "t1" (.ok (some [sampleTestResult]))).state.gradingResults = []
      ∧ (handleGradeTest sampleState "t1" (.ok (some [sampleTestResult]))).state.testGradingResults
        = (some [sampleTestResult]).getD [])
    ∧ ((handleGradeTest (handleGradeCourse sampleState "c1" (.ok (some [sampleQ1]))).state "t1"
          (.ok (some [sampleTestResult]))).state.gradingResults = []
      ∧ (handleGradeTest (handleGradeCourse sampleState "c1" (.ok (some [sampleQ1]))).state "t1"
          (.ok (some [sampleTestResult]))).state.testGradingResults
        = (some [sampleTestResult]).getD []) :=
  C3_single_active_result_set sampleState "c1" "t1" (some [sampleQ1])
    (some [sampleTestResult]) (by decide) (by decide)

/-- C4 counterexample: on a concrete external API failure, neither
handler re-raises anything to its caller — the `raised` component of the
handler outcome is `none`, not a GradingUnavailable error carrying the
cause; the failure is only logged and shown as a toast. -/
theorem C4_no_reraise_counterexample :
    (handleGradeCourse sampleState "c1" (.error ⟨"network down"⟩)).raised = none
    ∧ (handleGradeTest sampleState "t1" (.error ⟨"HTTP 500"⟩)).raised = none
    ∧ ¬ ∃ err : ApiError,
        (handleGradeCourse sampleState "c1" (.error ⟨"network down"⟩)).raised = some err := by
  refine ⟨?_, ?_, ?_⟩
  · simp [handleGradeCourse, sampleState]
  · simp [handleGradeTest, sampleState]
  · intro ⟨err, h⟩
    simp [handleGradeCourse, sampleState] at h

/-- C4 amended: on every external API failure the handlers catch the
error rather than re-raising it: no exception escapes to the caller
(`raised = none`), and the failure is surfaced as an error toast instead
of being silently dropped. -/
theorem C4_failure_caught_not_reraised (st : SessionState) (cid tid : String)
    (e e' : ApiError) :
    ((handleGradeCourse st cid (.error e)).raised = none
      ∧ ∃ m, Toast.error m ∈ (handleGradeCourse st cid (.error e)).toasts)
    ∧ ((handleGradeTest st tid (.error e')).raised = none
      ∧ ∃ m, Toast.error m ∈ (handleGradeTest st tid (.error e')).toasts) := by
  constructor
  · by_cases hc : cid = "" <;> simp [handleGradeCourse, hc]
  · by_cases ht : tid = "" <;> simp [handleGradeTest, ht]

/-- Closed form of classification: the find? over the priority list is
the if-chain over the five cutoffs in order. -/
theorem classify_eq (t : GradeThresholds) (s : ℚ) :
    classify s t =
      (if t.A ≤ s then .ok "A"
        else if t.B ≤ s then .ok "B"
        else if t.C ≤ s then .ok "C"
        else if t.D ≤ s then .ok "D"
        else if t.F ≤ s then .ok "F"
        else .error .invalidThresholds) := by
  split_ifs <;>
    simp [classify, gradeOrder, List.find?, cutoffOf, *]

/-- C5: under an ordered thresholds table and a score in [0,100],
classification is exactly first-match over the priority order A,B,C,D,F
with inclusive lower bounds: each label is returned precisely when its
cutoff is ≤ s and every higher-priority cutoff is > s; the
InvalidThresholds failure occurs precisely when no cutoff in the order
matches; and with {A:90,B:80,C:70,D:60,F:0} a score of exactly 80 earns
grade B. -/
theorem C5_classify_first_match (t : GradeThresholds) (s : ℚ)
    (hmono : t.F ≤ t.D ∧ t.D ≤ t.C ∧ t.C ≤ t.B ∧ t.B ≤ t.A)
    (hs : 0 ≤ s ∧ s ≤ 100) :
    (classify s t = .ok "A" ↔ t.A ≤ s)
    ∧ (classify s t = .ok "B" ↔ s < t.A ∧ t.B ≤ s)
    ∧ (classify s t = .ok "C" ↔ s < t.A ∧ s < t.B ∧ t.C ≤ s)
    ∧ (classify s t = .ok "D" ↔ s < t.A ∧ s < t.B ∧ s < t.C ∧ t.D ≤ s)
    ∧ (classify s t = .ok "F" ↔ s < t.A ∧ s < t.B ∧ s < t.C ∧ s < t.D ∧ t.F ≤ s)
    ∧ (classify s t = .error .invalidThresholds ↔ ∀ g ∈ gradeOrder, s < cutoffOf t g)
    ∧ classify 80 stdThresholds = .ok "B" := by
  have hcl := classify_eq t s
  have hstd : classify 80 stdThresholds = .ok "B" := by
    rw [classify_eq]
    norm_num [stdThresholds]
  refine ⟨?_, ?_, ?_, ?_, ?_, ?_, hstd⟩ <;>
    rw [hcl] <;> split_ifs with hA hB hC hD hF <;>
      simp_all [not_le, gradeOrder, cutoffOf]

/-- C5 witness. -/
theorem C5_classify_first_match_witness :
    (stdThresholds.F ≤ stdThresholds.D ∧ stdThresholds.D ≤ stdThresholds.C
      ∧ stdThresholds.C ≤ stdThresholds.B ∧ stdThresholds.B ≤ stdThresholds.A)
    ∧ ((0:ℚ) ≤ 80 ∧ (80:ℚ) ≤ 100)
    ∧ classify 80 stdThresholds = .ok "B" :=
  ⟨by norm_num [stdThresholds], by norm_num,
    (C5_classify_first_match stdThresholds 80 (by norm_num [stdThresholds])
      (by norm_num)).2.2.2.2.2.2⟩

/-- C6: aggregateOverall computes the point-weighted percentage
sum(points_earned) / sum(max_points) × 100 rounded to one decimal by
round-half-away-from-zero (round1 is odd, rounding negative halves away
from zero), classifies that score through the thresholds table, and on a
zero max-points total (including the empty list) yields score 0 without
any division failure; on scores {8,10} of max {10,10} it yields 90.0 and
grade A. -/
theorem C6_aggregateOverall_weighted (qs : List GradingResult) (mp : List ℚ)
    (t : GradeThresholds) (hmp : mp.sum ≠ 0) :
    (aggregateOverall qs mp t).overall_score
        = round1 ((qs.map (fun r => r.points_earned)).sum / mp.sum * 100)
    ∧ (aggregateOverall qs mp t).overall_grade
        = classify (aggregateOverall qs mp t).overall_score t
    ∧ (aggregateOverall qs mp t).total_points_earned
        = (qs.map (fun r => r.points_earned)).sum
    ∧ (∀ mp0 : List ℚ, mp0.sum = 0 → (aggregateOverall qs mp0 t).overall_score = 0)
    ∧ (∀ x : ℚ, round1 (-x) = -(round1 x))
    ∧ (∀ x : ℚ, 0 ≤ x → round1 x * 10 = (⌊x * 10 + 1 / 2⌋ : ℚ))
    ∧ (aggregateOverall [sampleQ1, sampleQ2] [10, 10] stdThresholds).overall_score = 90
    ∧ (aggregateOverall [sampleQ1, sampleQ2] [10, 10] stdThresholds).overall_grade = .ok "A" := by
  refine ⟨by simp [aggregateOverall, hmp], by simp [aggregateOverall], ?_, ?_, ?_, ?_, ?_, ?_⟩
  · simp [aggregateOverall]
  · intro mp0 h0
    simp [aggregateOverall, h0]
  · intro x
    rcases lt_trichotomy x 0 with hx | hx | hx
    · have h1 : ¬ (0:ℚ) ≤ x := not_le.mpr hx
      have h2 : (0:ℚ) ≤ -x := by linarith
      simp [round1, h1, h2]
    · subst hx
      norm_num [round1]
    · have h1 : (0:ℚ) ≤ x := le_of_lt hx
      have h2 : ¬ (0:ℚ) ≤ -x := by simp; linarith
      simp [round1, h1, h2]
  · intro x hx
    rw [round1, if_pos hx]
    field_simp
  · simp [aggregateOverall, sampleQ1, sampleQ2, round1]
    norm_num
  · simp [aggregateOverall, sampleQ1, sampleQ2, round1, classify, gradeOrder,
      cutoffOf, stdThresholds, List.find?]
    norm_num

/-- C6 witness. -/
theorem C6_aggregateOverall_weighted_witness :
    ((10:ℚ) + 10 ≠ 0)
    ∧ (aggregateOverall [sampleQ1, sampleQ2] [10, 10] stdThresholds).overall_score = 90
    ∧ (aggregateOverall [sampleQ1, sampleQ2] [10, 10] stdThresholds).overall_grade = .ok "A" := by
  have h := C6_aggregateOverall_weighted [sampleQ1, sampleQ2] [10, 10] stdThresholds
    (by norm_num)
  exact ⟨by norm_num, h.2.2.2.2.2.2.1, h.2.2.2.2.2.2.2⟩

/-- C7: calculateStats is a pure function of its input list — it reads
no session state, storage or clock in the source — so computing it twice
on the same collection (under the same thresholds, which it never
consults) gives identical Statistics outputs, and equal inputs give
equal outputs. -/
theorem C7_calculateStats_deterministic :
    ∀ rs : List ResultItem,
      calculateStats rs = calculateStats rs
      ∧ ∀ ss : List ResultItem, rs = ss → calculateStats rs = calculateStats ss := by
  intro rs
  exact ⟨rfl, fun ss h => by rw [h]⟩

/-- C7 witness. -/
theorem C7_calculateStats_deterministic_witness :
    calculateStats [ResultItem.course sampleQ1] = calculateStats [ResultItem.course sampleQ1] :=
  (C7_calculateStats_deterministic [ResultItem.course sampleQ1]).2
    [ResultItem.course sampleQ1] rfl

/-- C8: a thresholds update leaves both held result lists — and with
them every displayed grade label returned by the backend at fetch
time — unchanged, whether the external persistence call succeeds or
fails: no retroactive reclassification happens. -/
theorem C8_no_retroactive_reclassification (st : SessionState)
    (resp : Except ApiError Unit) :
    (handleUpdateThresholds st resp).state.gradingResults = st.gradingResults
    ∧ (handleUpdateThresholds st resp).state.testGradingResults = st.testGradingResults
    ∧ ((handleUpdateThresholds st resp).state.gradingResults.map (fun r => r.grade))
        = st.gradingResults.map (fun r => r.grade)
    ∧ ((handleUpdateThresholds st resp).state.testGradingResults.map
          (fun r => r.overall_grade))
        = st.testGradingResults.map (fun r => r.overall_grade) := by
  cases resp <;> simp [handleUpdateThresholds]

/-- C9: the thresholds-update handler performs no ordering validation:
any form whose five cutoffs pass the input's type/range checks (integers
0-100), even out of order, is stored as-is on success, with no error
raised and no error toast. -/
theorem C9_no_order_validation (st : SessionState) (form : GradeThresholds)
    (hA : 0 ≤ form.A ∧ form.A ≤ 100) (hB : 0 ≤ form.B ∧ form.B ≤ 100)
    (hC : 0 ≤ form.C ∧ form.C ≤ 100) (hD : 0 ≤ form.D ∧ form.D ≤ 100)
    (hF : 0 ≤ form.F ∧ form.F ≤ 100) :
    (handleUpdateThresholds { st with thresholdsForm := form } (.ok ())).state.gradeThresholds
        = some form
    ∧ (handleUpdateThresholds { st with thresholdsForm := form } (.ok ())).raised = none
    ∧ ∀ m, Toast.error m ∉ (handleUpdateThresholds { st with thresholdsForm := form } (.ok ())).toasts := by
  simp [handleUpdateThresholds]

/-- C9 witness, at the out-of-order table {A:90, B:80, C:60, D:70, F:0}
(D's cutoff above C's). -/
theorem C9_no_order_validation_witness :
    ((0:ℚ) ≤ 90 ∧ (90:ℚ) ≤ 100)
    ∧ ((handleUpdateThresholds { sampleState with thresholdsForm := ⟨90, 80, 60, 70, 0⟩ }
          (.ok ())).state.gradeThresholds = some ⟨90, 80, 60, 70, 0⟩
        ∧ (handleUpdateThresholds { sampleState with thresholdsForm := ⟨90, 80, 60, 70, 0⟩ }
            (.ok ())).raised = none
        ∧ ∀ m, Toast.error m ∉ (handleUpdateThresholds
            { sampleState with thresholdsForm := ⟨90, 80, 60, 70, 0⟩ } (.ok ())).toasts) :=
  ⟨by norm_num,
    C9_no_order_validation sampleState ⟨90, 80, 60, 70, 0⟩ (by norm_num) (by norm_num)
      (by norm_num) (by norm_num) (by norm_num)⟩

/-- C10: the thresholds update is atomic: if the external persistence
call fails, the in-memory thresholds are unchanged and the modal stays
open; the table is replaced (and the modal closed) only when the
external call succeeds. -/
theorem C10_thresholds_update_atomic (st : SessionState) (e : ApiError)
    (hopen : st.showThresholdsModal = true) :
    (handleUpdateThresholds st (.error e)).state.gradeThresholds = st.gradeThresholds
    ∧ (handleUpdateThresholds st (.error e)).state.showThresholdsModal = true
    ∧ (handleUpdateThresholds st (.ok ())).state.gradeThresholds = some st.thresholdsForm
    ∧ (handleUpdateThresholds st (.ok ())).state.showThresholdsModal = false := by
  simp [handleUpdateThresholds, hopen]

/-- C10 witness. -/
theorem C10_thresholds_update_atomic_witness :
    (handleUpdateThresholds sampleState (.error ⟨"HTTP 500"⟩)).state.gradeThresholds
        = sampleState.gradeThresholds
    ∧ (handleUpdateThresholds sampleState (.error ⟨"HTTP 500"⟩)).state.showThresholdsModal = true
    ∧ (handleUpdateThresholds sampleState (.ok ())).state.gradeThresholds
        = some sampleState.thresholdsForm
    ∧ (handleUpdateThresholds sampleState (.ok ())).state.showThresholdsModal = false :=
  C10_thresholds_update_atomic sampleState ⟨"HTTP 500"⟩ rfl

end Scorix
